import Mathlib

/-!
Verification of the machine-vision edge gateway (kuriousDesign/machine-vision).

This file gives a shallow embedding of the two state machines of the core:

* the per-camera lifecycle / recording / streaming machine of
  `src/src/cameras/camera_device_gpt.py` (`CameraDevice`), including the
  bounded-queue recording pipeline and its worker thread, and

* the device-level supervisor of `src/src/camera_service.py`
  (`CameraService`), including the heartbeat liveness check and the bus
  message handler.

Pure functions of the source become Lean functions; the concurrent parts
(capture loop, recording worker, external command writers, the diagnostics
reset task) become an interleaving of explicit scheduler steps over a state
record.  Machine frames are abstracted by identifiers; calls into OpenCV,
aiohttp and paho are modelled at their interface boundary as explicit
result inputs (success / failure / exception), exactly where the source
consumes such results.
-/

namespace MachineVision

namespace CamDev

/-- Frames are abstracted by identifiers; pixel data is irrelevant here. -/
abbrev Frame := Nat

/-- Values of the recording_state field (camera_device_gpt.py line 63:
"stopped" | "recording" | "saving" | "disconnected"). -/
inductive RecState
  | stopped
  | recording
  | saving
  | disconnected
deriving DecidableEq

/-- Values of the streaming_state field (camera_device_gpt.py line 64:
"stopped" | "streaming" | "disconnected"). -/
inductive StreamState
  | stopped
  | streaming
  | disconnected
deriving DecidableEq

/-- Bounded recording queue capacity, REC_QUEUE_MAXSIZE (line 37). -/
def REC_QUEUE_MAXSIZE : Nat := 12

/-- Capture statistics (the stats dict, lines 85-91).  The last_diag
timestamp is not modelled; the periodic reset performed by _log_stats is
modelled as a scheduler step of its own. -/
structure Stats where
  captured : Nat
  stream_sent : Nat
  record_written : Nat
  dropped_for_rec : Nat
deriving DecidableEq

/-- One recording worker thread together with its cv2.VideoWriter
(the _rec_worker body, lines 158-179).  file is the sequence of frames this
worker has successfully written, writerOpen tracks whether the VideoWriter
is still open (released at line 176), exited whether the worker function
has returned. -/
structure RecWorker where
  writerOpen : Bool
  file : List Frame
  exited : Bool
deriving DecidableEq

/-- The mutable state of one CameraDevice (constructor, lines 54-101).
cap is the capture handle (None or open); rec_thread is the index of the
thread currently referenced by _rec_thread inside workers, the list of all
worker threads ever spawned; rec_running is the shared _rec_running
threading.Event. -/
structure CamState where
  is_connected : Bool
  cap : Bool
  recording_state : RecState
  streaming_state : StreamState
  start_recording_command : Bool
  stop_recording_command : Bool
  start_streaming_command : Bool
  stop_streaming_command : Bool
  connect_command : Bool
  disconnect_command : Bool
  rec_queue : List Frame
  rec_running : Bool
  rec_thread : Option Nat
  workers : List RecWorker
  current_frame : Option Frame
  stats : Stats
deriving DecidableEq

/-- Initial CameraDevice state (constructor defaults, lines 54-101). -/
def initState : CamState where
  is_connected := false
  cap := false
  recording_state := RecState.stopped
  streaming_state := StreamState.stopped
  start_recording_command := false
  stop_recording_command := false
  start_streaming_command := false
  stop_streaming_command := false
  connect_command := false
  disconnect_command := false
  rec_queue := []
  rec_running := false
  rec_thread := none
  workers := []
  current_frame := none
  stats := { captured := 0, stream_sent := 0, record_written := 0, dropped_for_rec := 0 }

/-- open_capture (lines 106-143): on success the handle is open and the
device connected; on an open failure or an exception from the capture layer
the handle is released and the device stays disconnected.  openOk is the
outcome of the cv2.VideoCapture open at the capture capability boundary. -/
def open_capture (s : CamState) (openOk : Bool) : CamState :=
  if openOk then { s with cap := true, is_connected := true }
  else { s with cap := false, is_connected := false }

/-- close_capture (lines 145-153): marks disconnected and releases the
capture handle. -/
def close_capture (s : CamState) : CamState :=
  { s with is_connected := false, cap := false }

/-- A worker thread is alive while its function has not returned
(Thread.is_alive). -/
def workerAlive (s : CamState) (i : Nat) : Bool :=
  match s.workers[i]? with
  | some w => !w.exited
  | none => false

/-- start_record_worker (lines 181-201).  Returns the new state and the
Python return value (None when an alive thread is already referenced,
False when the capture is not open, True when a fresh worker was started).
Starting sets the shared _rec_running event (line 194) and spawns a new
worker; writerOk is the outcome of the VideoWriter open inside the new
worker (lines 161-164) - on failure that worker returns immediately. -/
def start_record_worker (s : CamState) (writerOk : Bool) : CamState × Option Bool :=
  if (match s.rec_thread with
      | some i => workerAlive s i
      | none => false) then
    (s, none)
  else if !s.cap then
    (s, some false)
  else
    let w : RecWorker :=
      if writerOk then { writerOpen := true, file := [], exited := false }
      else { writerOpen := false, file := [], exited := true }
    ({ s with rec_running := true,
              rec_thread := some s.workers.length,
              workers := s.workers ++ [w] }, some true)

/-- stop_record_worker (lines 203-210): clears the _rec_running event and
drops the thread reference.  The join (line 207) only blocks the caller up
to a timeout and does not change state; whether the worker has finished by
then is decided by how many rec_worker_step steps the scheduler has given
it.  Note line 210 sets _rec_thread to None even when the join timed out
and the worker is still alive. -/
def stop_record_worker (s : CamState) : CamState :=
  { s with rec_running := false, rec_thread := none }

/-- Observable pipeline events, used to state the accounting and ordering
properties of the recording pipeline. -/
inductive Event
  | enqueueAttempt (f : Frame)
  | accepted (f : Frame)
  | dropped (f : Frame)
  | written (i : Nat) (f : Frame)
  | writeError (i : Nat) (f : Frame)
deriving DecidableEq

/-- One iteration of the _rec_worker loop by worker i (lines 166-177).
While the _rec_running event is set or the queue is nonempty the worker
takes the queue head and writes it; writeOk is the outcome of
VideoWriter.write - a write error is logged and the loop continues
(lines 174-175).  When the loop condition fails the writer is released and
the worker exits (lines 176-177). -/
def rec_worker_step (s : CamState) (i : Nat) (writeOk : Bool) : CamState × List Event :=
  match s.workers[i]? with
  | none => (s, [])
  | some w =>
    if w.exited then (s, [])
    else if s.rec_running || !s.rec_queue.isEmpty then
      match s.rec_queue with
      | [] => (s, [])
      | f :: rest =>
        if writeOk then
          ({ s with rec_queue := rest,
                    workers := s.workers.set i { w with file := w.file ++ [f] },
                    stats := { s.stats with record_written := s.stats.record_written + 1 } },
           [Event.written i f])
        else
          ({ s with rec_queue := rest }, [Event.writeError i f])
    else
      ({ s with workers := s.workers.set i { w with writerOpen := false, exited := true } }, [])

/-- Outcome of one cap.read() call at the capture boundary (lines 328-334):
a frame, a false return value, or an exception. -/
inductive ReadResult
  | ok (f : Frame)
  | fail
  | exn
deriving DecidableEq

/-- Environment outcomes consumed by one iteration of the run loop. -/
structure TickInput where
  openOk : Bool
  read : ReadResult
  writerOk : Bool
deriving DecidableEq

/-- Connect-command handling at the top of the run loop (lines 315-317). -/
def handleConnectCmd (s : CamState) (openOk : Bool) : CamState :=
  if s.connect_command && !s.is_connected then
    open_capture { s with connect_command := false } openOk
  else s

/-- Disconnect-command handling (lines 319-324): close the capture and, if
recording, force the saving state. -/
def handleDisconnectCmd (s : CamState) : CamState :=
  if s.disconnect_command && s.is_connected then
    let s1 := close_capture { s with disconnect_command := false }
    if s1.recording_state = RecState.recording then
      { s1 with recording_state := RecState.saving }
    else s1
  else s

/-- Streaming-command handling inside the connected branch (lines 349-359). -/
def handleStreamCmds (s : CamState) : CamState :=
  let s1 :=
    if s.start_streaming_command then
      let t := { s with start_streaming_command := false }
      if t.streaming_state ≠ StreamState.streaming then
        { t with streaming_state := StreamState.streaming }
      else t
    else s
  if s1.stop_streaming_command then
    let t := { s1 with stop_streaming_command := false }
    if t.streaming_state = StreamState.streaming then
      { t with streaming_state := StreamState.stopped }
    else t
  else s1

/-- Recording-command handling and frame enqueue inside the connected
branch (lines 361-388): start a worker from stopped/disconnected, stop to
saving, otherwise enqueue the frame non-blocking (drop and count when the
bounded queue is full), and from saving stop the worker and return to
stopped. -/
def handleRecording (s : CamState) (f : Frame) (writerOk : Bool) : CamState × List Event :=
  if s.recording_state = RecState.stopped ∨ s.recording_state = RecState.disconnected then
    if s.start_recording_command then
      let s1 := { s with start_recording_command := false }
      let p := start_record_worker s1 writerOk
      if p.2 = some true then
        ({ p.1 with recording_state := RecState.recording }, [])
      else (p.1, [])
    else (s, [])
  else if s.recording_state = RecState.recording then
    if s.stop_recording_command then
      ({ s with stop_recording_command := false, recording_state := RecState.saving }, [])
    else
      if REC_QUEUE_MAXSIZE ≤ s.rec_queue.length then
        ({ s with stats := { s.stats with dropped_for_rec := s.stats.dropped_for_rec + 1 } },
         [Event.enqueueAttempt f, Event.dropped f])
      else
        ({ s with rec_queue := s.rec_queue ++ [f] },
         [Event.enqueueAttempt f, Event.accepted f])
  else if s.recording_state = RecState.saving then
    ({ stop_record_worker s with recording_state := RecState.stopped }, [])
  else (s, [])

/-- One iteration of the CameraDevice.run loop body (lines 313-391):
process connect and disconnect commands, then, while connected, read one
frame (closing the capture on a failed read or a capture exception),
publish it to the shared last-frame buffer, and process streaming and
recording commands. -/
def camTick (s : CamState) (inp : TickInput) : CamState × List Event :=
  let s1 := handleConnectCmd s inp.openOk
  let s2 := handleDisconnectCmd s1
  if s2.is_connected && s2.cap then
    match inp.read with
    | ReadResult.exn => (close_capture s2, [])
    | ReadResult.fail => (close_capture s2, [])
    | ReadResult.ok f =>
      let s3 := { s2 with
                    stats := { s2.stats with captured := s2.stats.captured + 1 },
                    current_frame := some f }
      let s4 := handleStreamCmds s3
      handleRecording s4 f inp.writerOk
  else (s2, [])

/-- External command requests (keyboard listener lines 449-467, and the
intended bus dispatch): each sets the corresponding one-shot flag. -/
inductive Command
  | connect
  | disconnect
  | startRecord
  | stopRecord
  | startStream
  | stopStream
deriving DecidableEq

/-- Setting a one-shot command flag from outside the run loop. -/
def setCommand (s : CamState) : Command → CamState
  | Command.connect => { s with connect_command := true }
  | Command.disconnect => { s with disconnect_command := true }
  | Command.startRecord => { s with start_recording_command := true }
  | Command.stopRecord => { s with stop_recording_command := true }
  | Command.startStream => { s with start_streaming_command := true }
  | Command.stopStream => { s with stop_streaming_command := true }

/-- One scheduler step of the whole device: an iteration of the run loop,
an iteration of a recording worker's loop, an externally set command flag,
or the periodic stats reset of the _log_stats task (line 419). -/
inductive SysStep
  | tick (inp : TickInput)
  | work (i : Nat) (writeOk : Bool)
  | command (c : Command)
  | diag
deriving DecidableEq

/-- Effect of one scheduler step. -/
def sysStep (s : CamState) : SysStep → CamState × List Event
  | SysStep.tick inp => camTick s inp
  | SysStep.work i writeOk => rec_worker_step s i writeOk
  | SysStep.command c => (setCommand s c, [])
  | SysStep.diag =>
      ({ s with stats :=
          { captured := 0, stream_sent := 0, record_written := 0, dropped_for_rec := 0 } }, [])

/-- Run a sequence of scheduler steps, accumulating pipeline events. -/
def run (s : CamState) : List SysStep → CamState × List Event
  | [] => (s, [])
  | st :: rest =>
    ((run (sysStep s st).1 rest).1, (sysStep s st).2 ++ (run (sysStep s st).1 rest).2)

/-- Final state of a run. -/
def runS (s : CamState) (steps : List SysStep) : CamState := (run s steps).1

/-- Events of a run. -/
def runE (s : CamState) (steps : List SysStep) : List Event := (run s steps).2

/-- Frames the capture loop attempted to enqueue, in order. -/
def attemptList (evs : List Event) : List Frame :=
  evs.filterMap fun e => match e with
    | Event.enqueueAttempt f => some f
    | _ => none

/-- Frames accepted into the bounded queue, in order. -/
def acceptedList (evs : List Event) : List Frame :=
  evs.filterMap fun e => match e with
    | Event.accepted f => some f
    | _ => none

/-- Frames dropped because the queue was observed full, in order. -/
def droppedList (evs : List Event) : List Frame :=
  evs.filterMap fun e => match e with
    | Event.dropped f => some f
    | _ => none

/-- Frames taken off the queue by some worker, whether the write succeeded
or failed, in dequeue order. -/
def processedList (evs : List Event) : List Frame :=
  evs.filterMap fun e => match e with
    | Event.written _ f => some f
    | Event.writeError _ f => some f
    | _ => none

/-- Frames successfully written by worker i, in order. -/
def writtenList (i : Nat) (evs : List Event) : List Frame :=
  evs.filterMap fun e => match e with
    | Event.written j f => if j = i then some f else none
    | _ => none

/-- Frames successfully written by any worker, in order. -/
def writtenAll (evs : List Event) : List Frame :=
  evs.filterMap fun e => match e with
    | Event.written _ f => some f
    | _ => none

/-- Number of frames whose VideoWriter.write raised. -/
def writeErrorCount (evs : List Event) : Nat :=
  (evs.filterMap fun e => match e with
    | Event.writeError _ f => some f
    | _ => none).length

/-- A scheduler step whose capture read, if any, yields a frame: no false
return from cap.read and no capture exception. -/
def stepReadOk : SysStep → Bool
  | SysStep.tick inp =>
      (match inp.read with
       | ReadResult.ok _ => true
       | _ => false)
  | _ => true

/-- Every run-loop iteration in the step sequence reads its frame
successfully. -/
def ReadsOk (steps : List SysStep) : Bool :=
  steps.all stepReadOk

/-- The inductive invariant tying a state to the pipeline events that led
to it: the frames dequeued so far followed by the current queue are
exactly the accepted frames in order; every enqueue attempt was either
accepted or dropped; each worker's file is exactly the frames it
successfully wrote, in order; written events only name existing workers;
and the bounded queue never exceeds its capacity. -/
def PipelineInv (s : CamState) (evs : List Event) : Prop :=
  processedList evs ++ s.rec_queue = acceptedList evs ∧
  (attemptList evs).length = (acceptedList evs).length + (droppedList evs).length ∧
  (∀ i w, s.workers[i]? = some w → w.file = writtenList i evs) ∧
  (∀ i f, Event.written i f ∈ evs → i < s.workers.length) ∧
  s.rec_queue.length ≤ REC_QUEUE_MAXSIZE

/-- The initial response decision of mjpeg_handler: a plain error response
returned before any multipart content exists, or a prepared streaming
response.  A plain response carries no frames by construction. -/
inductive MjpegResult
  | plain (status : Nat) (text : String)
  | stream (status : Nat) (contentType : String)
deriving DecidableEq

/-- The gate of mjpeg_handler (lines 230-243): a 503 plain response when
the device is not connected or the capture handle is absent, a 503 plain
response when the streaming substate is not streaming, and otherwise a 200
multipart/x-mixed-replace streaming response; only in the last case does
the handler proceed to write frames. -/
def mjpeg_handler_gate (s : CamState) : MjpegResult :=
  if !s.is_connected || !s.cap then
    MjpegResult.plain 503 "Camera not connected"
  else if s.streaming_state ≠ StreamState.streaming then
    MjpegResult.plain 503 "Streaming not enabled"
  else
    MjpegResult.stream 200 "multipart/x-mixed-replace; boundary=frame"

/-- Status code of a response. -/
def MjpegResult.status : MjpegResult → Nat
  | MjpegResult.plain st _ => st
  | MjpegResult.stream st _ => st

/-- Shorthand for a run-loop iteration whose capture read yields frame f. -/
def tickOk (f : Frame) : SysStep :=
  SysStep.tick { openOk := true, read := ReadResult.ok f, writerOk := true }

/-- Scenario: connect, start recording, then a capture read failure. -/
def traceReadFailureWhileRecording : List SysStep :=
  [SysStep.command Command.connect, tickOk 0,
   SysStep.command Command.startRecord, tickOk 1,
   SysStep.tick { openOk := true, read := ReadResult.fail, writerOk := true }]

/-- Scenario: disconnect intent arrives mid-recording, then the scheduler
keeps running while the device stays disconnected. -/
def traceDisconnectMidRecording : List SysStep :=
  [SysStep.command Command.connect, tickOk 0,
   SysStep.command Command.startRecord, tickOk 1,
   SysStep.command Command.disconnect, tickOk 2,
   tickOk 3, SysStep.work 0 true, tickOk 4]

/-- Scenario: one frame is accepted into the queue, its write raises, and
the session is stopped and fully drained. -/
def traceWriteErrorSession : List SysStep :=
  [SysStep.command Command.connect, tickOk 0,
   SysStep.command Command.startRecord, tickOk 1,
   tickOk 2, SysStep.work 0 false,
   SysStep.command Command.stopRecord, tickOk 3, tickOk 4,
   SysStep.work 0 true]

/-- Scenario identical in shape to traceWriteErrorSession, used to examine
the written file rather than the counters. -/
def traceWriteErrorFile : List SysStep :=
  [SysStep.command Command.connect, tickOk 0,
   SysStep.command Command.startRecord, tickOk 1,
   tickOk 2, SysStep.work 0 false,
   SysStep.command Command.stopRecord, tickOk 3, tickOk 4,
   SysStep.work 0 true]

/-- Scenario: start recording, stop it while the worker (never scheduled)
still holds a queued frame - the join times out, line 210 clears the
thread reference anyway - then start recording again. -/
def traceStopStartRecord : List SysStep :=
  [SysStep.command Command.connect, tickOk 0,
   SysStep.command Command.startRecord, tickOk 1,
   tickOk 2,
   SysStep.command Command.stopRecord, tickOk 3, tickOk 4,
   SysStep.command Command.startRecord, tickOk 5]

/-- Scenario: a clean recording session - one frame accepted, written, and
the session stopped and drained with no write error. -/
def traceCleanSession : List SysStep :=
  [SysStep.command Command.connect, tickOk 0,
   SysStep.command Command.startRecord, tickOk 1,
   tickOk 2, SysStep.work 0 true,
   SysStep.command Command.stopRecord, tickOk 3, tickOk 4,
   SysStep.work 0 true]

/-- Scenario identical in shape to traceCleanSession, used as the ordering
witness. -/
def traceCleanSessionFile : List SysStep :=
  [SysStep.command Command.connect, tickOk 0,
   SysStep.command Command.startRecord, tickOk 1,
   tickOk 2, SysStep.work 0 true,
   SysStep.command Command.stopRecord, tickOk 3, tickOk 4,
   SysStep.work 0 true]

/-- Scenario: connect, start recording, and enqueue until the bounded
queue holds REC_QUEUE_MAXSIZE frames with the worker never scheduled. -/
def traceFillQueue : List SysStep :=
  [SysStep.command Command.connect, tickOk 0,
   SysStep.command Command.startRecord, tickOk 1,
   tickOk 2, tickOk 3, tickOk 4, tickOk 5, tickOk 6, tickOk 7,
   tickOk 8, tickOk 9, tickOk 10, tickOk 11, tickOk 12, tickOk 13]

/-- Scenario: a recording session that ends connected - recording started,
a frame accepted and written, stop command processed, finalize tick. -/
def traceRecordingSession : List SysStep :=
  [SysStep.command Command.connect, tickOk 0,
   SysStep.command Command.startRecord, tickOk 1]

/-- A connected camera with streaming enabled, as reached by connecting
and issuing start_stream. -/
def camConnectedStreaming : CamState :=
  runS initState
    [SysStep.command Command.connect, tickOk 0,
     SysStep.command Command.startStream, tickOk 1]

/-- A disconnected camera with pending stream/record intents. -/
def camDisconnectedWithIntents : CamState :=
  { initState with start_streaming_command := true, start_recording_command := true }

/-- A disconnected camera with a pending connect intent and pending
start_stream intent. -/
def camReconnectPending : CamState :=
  { initState with connect_command := true, start_streaming_command := true }

/-- A disconnected camera with a pending connect intent and pending
start_record intent. -/
def camRecordPending : CamState :=
  { initState with connect_command := true, start_recording_command := true }

/-- A connected camera that is recording and has just received the
disconnect intent. -/
def camRecordingDisconnecting : CamState :=
  { initState with is_connected := true, cap := true,
                   recording_state := RecState.recording, disconnect_command := true }

/-- A connected camera in the saving state. -/
def camSaving : CamState :=
  { initState with is_connected := true, cap := true,
                   recording_state := RecState.saving,
                   rec_running := true, rec_thread := some 0,
                   workers := [{ writerOpen := true, file := [], exited := false }] }

/-- A camera whose recording worker has been signalled to stop and whose
queue is drained. -/
def camWorkerDraining : CamState :=
  { initState with rec_running := false, rec_queue := [],
                   workers := [{ writerOpen := true, file := [7], exited := false }] }

end CamDev

namespace CamSvc

/- Supervisory step numbers: the DeviceStates dataclass of
src/src/device.py lines 94-106. -/
namespace DeviceStates

/-- FAULTED step number. -/
def FAULTED : Int := -2

/-- KILLED step number. -/
def KILLED : Int := -1

/-- INACTIVE step number. -/
def INACTIVE : Int := 0

/-- RESETTING step number. -/
def RESETTING : Int := 50

/-- IDLE step number. -/
def IDLE : Int := 100

/-- RUNNING step number. -/
def RUNNING : Int := 500

/-- STOPPING step number. -/
def STOPPING : Int := 900

/-- ABORTING step number. -/
def ABORTING : Int := 911

/-- PAUSED step number. -/
def PAUSED : Int := 999

/-- DONE step number. -/
def DONE : Int := 1000

/-- MANUAL step number. -/
def MANUAL : Int := 2000

end DeviceStates

/-- Modelled from the spec: the fixed heartbeat timeout duration (the
"heartbeat timeout duration" item of the configuration surface), referenced
by CameraService.checkHeartbeat at src/src/camera_service.py line 227 but
not defined anywhere in the provided sources.  It is fixed here at an
arbitrary positive number of milliseconds; no theorem below depends on the
value. -/
def HEARTBEAT_TIMEOUT_MS : Int := 5000

/-- The mutable supervisor state of CameraService (src/src/camera_service.py):
the device step number device_data.Is.stepNum, the mirrored heartbeat pair
vis_sts.iExtService.i.heartbeatVal / vis_sts.iExtService.o.heartbeatVal and
the echoed step vis_sts.iExtService.i.stepNum, the heartbeat bookkeeping of
the constructor (lines 45-46), the bus connection flags (lines 40-41), the
internal running flag (line 49) and the run_state_machine loop's
last_publish_time_ms local (line 182). -/
structure SvcState where
  stepNum : Int
  i_heartbeatVal : Int
  i_stepNum : Int
  o_heartbeatVal : Int
  last_heartbate_update_ms : Int
  heartbeat_detected : Bool
  mqtt_is_connected : Bool
  is_connecting_to_mqtt : Bool
  running : Bool
  last_publish_time_ms : Int
deriving DecidableEq

/-- Supervisor state after the CameraService constructor (lines 14-56):
step number ABORTING, heartbeat values zeroed, nothing detected. -/
def svcInit : SvcState where
  stepNum := DeviceStates.ABORTING
  i_heartbeatVal := 0
  i_stepNum := 0
  o_heartbeatVal := 0
  last_heartbate_update_ms := 0
  heartbeat_detected := false
  mqtt_is_connected := false
  is_connecting_to_mqtt := false
  running := true
  last_publish_time_ms := 0

/-- set_new_step_num (lines 174-177). -/
def set_new_step_num (s : SvcState) (n : Int) : SvcState :=
  { s with stepNum := n }

/-- checkHeartbeat (lines 217-231), with nowMs standing for the calls to
time.time.  The first branch mirrors a changed heartbeat value and, on the
first detected change, jumps the step to RUNNING; the elif branch compares
the time since the last mirrored change against the timeout, but its body
is guarded by the same flag the elif already requires to be set, so the
body never runs. -/
def checkHeartbeat (s : SvcState) (nowMs : Int) : SvcState :=
  let s0 := { s with i_stepNum := s.stepNum }
  if s0.i_heartbeatVal ≠ s0.o_heartbeatVal then
    let s1 := { s0 with i_heartbeatVal := s0.o_heartbeatVal,
                        last_heartbate_update_ms := nowMs }
    if !s1.heartbeat_detected then
      set_new_step_num { s1 with heartbeat_detected := true } DeviceStates.RUNNING
    else s1
  else if s0.heartbeat_detected ∧ HEARTBEAT_TIMEOUT_MS < nowMs - s0.last_heartbate_update_ms then
    if !s0.heartbeat_detected then
      set_new_step_num { s0 with heartbeat_detected := true } DeviceStates.ABORTING
    else s0
  else s0

/-- Outcome of client.connect at the bus boundary: an exception when the
broker is unreachable. -/
def client_connect (connectOk : Bool) : Except String Unit :=
  if connectOk then Except.ok () else Except.error "ConnectionRefusedError"

/-- connect_mqtt (lines 61-79).  The empty-host check only prints and
assigns a dead local; a raising client.connect is caught at lines 77-79
(print and sleep), so a failed attempt leaves the state unchanged and a
successful call marks a connection attempt in flight. -/
def connect_mqtt (s : SvcState) (connectOk : Bool) : SvcState :=
  if s.running then
    match client_connect connectOk with
    | Except.ok _ => { s with is_connecting_to_mqtt := true }
    | Except.error _ => s
  else s

/-- Outcome of the client.publish calls at the bus boundary. -/
def client_publish (publishOk : Bool) : Except String Unit :=
  if publishOk then Except.ok () else Except.error "publish failed"

/-- publish_device_data (lines 233-248): echo the step number into the
published status, skip entirely while the bus is disconnected, and catch
any exception from the publish itself (lines 247-248); either way the
supervisor state is unchanged beyond the echo. -/
def publish_device_data (s : SvcState) (publishOk : Bool) : SvcState :=
  let s1 := { s with i_stepNum := s.stepNum }
  if !s1.mqtt_is_connected then s1
  else
    match client_publish publishOk with
    | Except.ok _ => s1
    | Except.error _ => s1

/-- Environment outcomes consumed by one iteration of the
run_state_machine loop. -/
structure SvcInput where
  nowMs : Int
  connectOk : Bool
  publishOk : Bool
deriving DecidableEq

/-- The match statement of run_state_machine (lines 192-210): ABORTING
advances to INACTIVE, INACTIVE to RESETTING, RESETTING to IDLE once the
bus is up (otherwise initiating a connection attempt when none is in
flight); IDLE and RUNNING hold, and any other value falls through the
match unchanged. -/
def dispatch_step (s : SvcState) (connectOk : Bool) : SvcState :=
  if s.stepNum = DeviceStates.ABORTING then set_new_step_num s DeviceStates.INACTIVE
  else if s.stepNum = DeviceStates.INACTIVE then set_new_step_num s DeviceStates.RESETTING
  else if s.stepNum = DeviceStates.RESETTING then
    if s.mqtt_is_connected then set_new_step_num s DeviceStates.IDLE
    else if !s.is_connecting_to_mqtt then connect_mqtt s connectOk
    else s
  else s

/-- One iteration of the run_state_machine loop body (lines 186-215): the
heartbeat check, the forced jump to ABORTING when the bus drops while the
step is above RESETTING, the step dispatch, and the periodic status
publication.  The result is an Except so every modelled exception that the
source does not catch would surface as an error. -/
def run_state_machine_tick (s : SvcState) (inp : SvcInput) : Except String SvcState :=
  let s1 := checkHeartbeat s inp.nowMs
  let s2 := if DeviceStates.RESETTING < s1.stepNum ∧ s1.mqtt_is_connected = false then
              set_new_step_num s1 DeviceStates.ABORTING
            else s1
  let s3 := dispatch_step s2 inp.connectOk
  let s4 := if 1000 ≤ inp.nowMs - s3.last_publish_time_ms then
              publish_device_data { s3 with last_publish_time_ms := inp.nowMs } inp.publishOk
            else s3
  Except.ok s4

/-- Modelled from the spec: the status topic carrying the mirrored
heartbeat counter (the "Bus liveness topic" of the external interfaces).
The SubscriptionTopics enum of src/src/config.py does not declare the
MACHINE_VIS_STATUS member referenced at src/src/camera_service.py line 123;
it is modelled as this distinguished topic string. -/
def MACHINE_VIS_STATUS : String := "machine/vis/status"

/-- The one-shot command flags of a CameraDevice as the message handler
sees them. -/
structure CamIntents where
  connect_command : Bool
  disconnect_command : Bool
  start_streaming_command : Bool
  stop_streaming_command : Bool
  start_recording_command : Bool
  stop_recording_command : Bool
deriving DecidableEq

/-- All-clear intent flags. -/
def noIntents : CamIntents where
  connect_command := false
  disconnect_command := false
  start_streaming_command := false
  stop_streaming_command := false
  start_recording_command := false
  stop_recording_command := false

/-- The payload object of a parsed message: the optional cmd field, the
params array, and, for status messages, whether dacite.from_dict accepts
the payload as a VisSts and which heartbeat value it carries. -/
structure PayloadData where
  cmd : Option String
  params : List Nat
  visHeartbeat : Option Int
deriving DecidableEq

/-- An incoming message body as json.loads sees it: invalid JSON, valid
JSON that is not an object (json.loads succeeds but msg.get then raises
AttributeError), or an object with an optional payload field. -/
inductive MsgBody
  | badJson
  | nonDict
  | dict (payload : Option PayloadData)
deriving DecidableEq

/-- The command dispatch of _on_message (lines 137-156).  Modelled from
the spec where it calls into the absent cameras/camera_device.py module:
connect_cmd() on the addressed device is taken to set its connect intent
flag.  Looking up an unknown or missing camera id raises KeyError
(self.cameras is a dict); an unrecognized command is logged and ignored. -/
def dispatchCommand (cams : List (Nat × CamIntents)) (camId : Option Nat) (c : String) :
    Except String (List (Nat × CamIntents)) :=
  let setOn (g : CamIntents → CamIntents) : Except String (List (Nat × CamIntents)) :=
    match camId with
    | none => Except.error "KeyError"
    | some cid =>
      match cams.lookup cid with
      | none => Except.error "KeyError"
      | some _ => Except.ok (cams.map fun p => if p.1 = cid then (p.1, g p.2) else p)
  if c = "connect" then setOn fun ci => { ci with connect_command := true }
  else if c = "disconnect" then setOn fun ci => { ci with disconnect_command := true }
  else if c = "start_stream" then setOn fun ci => { ci with start_streaming_command := true }
  else if c = "stop_stream" then setOn fun ci => { ci with stop_streaming_command := true }
  else if c = "start_record" then setOn fun ci => { ci with start_recording_command := true }
  else if c = "stop_record" then setOn fun ci => { ci with stop_recording_command := true }
  else Except.ok cams

/-- The _on_message handler (src/src/camera_service.py lines 102-156).
Invalid JSON and a missing payload field are caught and dropped
(lines 110-120); a JSON body that is not an object raises AttributeError
at msg.get.  A status-topic payload is converted with dacite.from_dict
(raising when it does not fit VisSts) and its heartbeat output mirrored.
For every other topic the handler sets actionType to the empty string at
line 134 and only dispatches commands under the comparison
actionType == "cmd" at line 136, translated literally below. -/
def on_message (s : SvcState) (cams : List (Nat × CamIntents)) (topic : String)
    (body : MsgBody) : Except String (SvcState × List (Nat × CamIntents)) :=
  match body with
  | MsgBody.badJson => Except.ok (s, cams)
  | MsgBody.nonDict => Except.error "AttributeError"
  | MsgBody.dict none => Except.ok (s, cams)
  | MsgBody.dict (some data) =>
    if topic = MACHINE_VIS_STATUS then
      match data.visHeartbeat with
      | some hb => Except.ok ({ s with o_heartbeatVal := hb }, cams)
      | none => Except.error "dacite.from_dict"
    else
      let actionType := ""
      if actionType = "cmd" then
        match data.cmd with
        | some c =>
          match dispatchCommand cams data.params.head? c with
          | Except.ok cams2 => Except.ok (s, cams2)
          | Except.error e => Except.error e
        | none => Except.ok (s, cams)
      else Except.ok (s, cams)

/-- A supervisor state in which a heartbeat change was detected earlier
(at time 0, value 5 mirrored) and the step has been RUNNING since. -/
def svcHeartbeatStale : SvcState :=
  { svcInit with stepNum := DeviceStates.RUNNING,
                 i_heartbeatVal := 5, o_heartbeatVal := 5,
                 heartbeat_detected := true, last_heartbate_update_ms := 0 }

/-- A camera table with the single camera id 1 and no pending intents. -/
def camsOne : List (Nat × CamIntents) := [(1, noIntents)]

/-- A well-formed command payload addressed to camera 1. -/
def startStreamPayload : PayloadData :=
  { cmd := some "start_stream", params := [1], visHeartbeat := none }

end CamSvc

namespace CamDev

/-- Induction principle for runs: a relation between state and accumulated
events that is preserved by every scheduler step satisfying a side
condition holds after every run consisting of such steps. -/
theorem run_invariant (I : CamState → List Event → Prop) (Ok : SysStep → Bool)
    (hstep : ∀ s evs st, Ok st = true → I s evs →
      I (sysStep s st).1 (evs ++ (sysStep s st).2)) :
    ∀ (steps : List SysStep) (s0 : CamState) (evs0 : List Event),
      steps.all Ok = true → I s0 evs0 →
      I (run s0 steps).1 (evs0 ++ (run s0 steps).2) := by
  intro steps
  induction steps with
  | nil =>
    intro s0 evs0 _ h0
    simpa [run] using h0
  | cons st rest ih =>
    intro s0 evs0 hall h0
    simp only [List.all_cons, Bool.and_eq_true] at hall
    have h1 := hstep s0 evs0 st hall.1 h0
    have h2 := ih (sysStep s0 st).1 (evs0 ++ (sysStep s0 st).2) hall.2 h1
    simpa [run, List.append_assoc] using h2

/-- While the device is disconnected and no connect intent is pending, one
iteration of the run loop is a no-op: every field of the state, including
the streaming/recording substates and all pending intent flags, is left
untouched, and no pipeline event occurs. -/
theorem camTick_disconnected (s : CamState) (inp : TickInput)
    (h1 : s.is_connected = false) (h2 : s.connect_command = false) :
    camTick s inp = (s, []) := by
  unfold camTick handleConnectCmd handleDisconnectCmd
  simp [h1, h2]

end CamDev

namespace CamSvc

/-- C1. The heartbeat-timeout branch of checkHeartbeat never fires: for
every supervisor state and time, checkHeartbeat leaves the step number
unchanged or jumps it to RUNNING - it never sets ABORTING; in particular,
in the concrete scenario of the claim (change detected earlier, mirrored
value unchanged, timeout elapsed) the step stays RUNNING instead of being
set to ABORTING, because the assignment is guarded by the negation of the
very flag the branch requires. -/
theorem checkHeartbeat_timeout_never_aborts :
    (∀ (s : SvcState) (nowMs : Int),
       (checkHeartbeat s nowMs).stepNum = s.stepNum ∨
       (checkHeartbeat s nowMs).stepNum = DeviceStates.RUNNING) ∧
    (svcHeartbeatStale.heartbeat_detected = true ∧
     svcHeartbeatStale.i_heartbeatVal = svcHeartbeatStale.o_heartbeatVal ∧
     HEARTBEAT_TIMEOUT_MS < 6000 - svcHeartbeatStale.last_heartbate_update_ms ∧
     (checkHeartbeat svcHeartbeatStale 6000).stepNum = DeviceStates.RUNNING ∧
     DeviceStates.RUNNING ≠ DeviceStates.ABORTING) := by
  constructor
  · intro s nowMs
    simp only [checkHeartbeat, set_new_step_num]
    split_ifs <;> simp_all
  · refine ⟨rfl, rfl, by decide, by decide, by decide⟩

/-- C9. One iteration of the run_state_machine loop body always completes
with a successor state: every fallible call it makes (client.connect,
client.publish) is wrapped in a source-level try/except, and the heartbeat
check and dispatch are total, so no modelled error condition escapes the
tick. -/
theorem run_state_machine_tick_total (s : SvcState) (inp : SvcInput) :
    ∃ s2, run_state_machine_tick s inp = Except.ok s2 :=
  ⟨_, rfl⟩

/-- C3. The command dispatch of the message handler is unreachable: for
every well-formed command message on a non-status topic the handler
returns with the supervisor state and every camera intent flag unchanged
(actionType is the empty string, so the dispatch guard at line 136 never
holds); in particular a start_stream command addressed to the known
camera 1 sets no flag. -/
theorem on_message_command_dispatch_unreachable :
    (∀ (s : SvcState) (cams : List (Nat × CamIntents)) (topic : String)
       (data : PayloadData),
       topic = MACHINE_VIS_STATUS ∨
       on_message s cams topic (MsgBody.dict (some data)) = Except.ok (s, cams)) ∧
    on_message svcInit camsOne "hmi/action_req/13"
        (MsgBody.dict (some startStreamPayload)) = Except.ok (svcInit, camsOne) := by
  constructor
  · intro s cams topic data
    by_cases htop : topic = MACHINE_VIS_STATUS
    · exact Or.inl htop
    · refine Or.inr ?_
      unfold on_message
      simp [htop]
  · rfl

end CamSvc

namespace CamDev

/-- C7 (failing scenario). After a recording session is stopped while the
worker still holds a queued frame (so the bounded join of
stop_record_worker times out and line 210 drops the thread reference
anyway) and start_record is issued again, TWO recording workers are alive
with open writers for the same device: the new one, and the old one whose
loop was revived when start_record_worker set the shared _rec_running
event again. -/
theorem stop_start_record_yields_two_workers :
    ((runS initState traceStopStartRecord).workers.filter fun w => !w.exited).length = 2 ∧
    ((runS initState traceStopStartRecord).workers.filter fun w => w.writerOpen).length = 2 ∧
    (runS initState traceStopStartRecord).recording_state = RecState.recording ∧
    (runS initState traceStopStartRecord).rec_running = true := by
  decide

/-- C2 (counterexample). A capture read failure while recording
disconnects the device without forcing the recording into saving: after
the trace connect / start_record / read-failure the device reports
recording_state recording while it is disconnected. -/
theorem read_failure_keeps_recording_while_disconnected :
    (runS initState traceReadFailureWhileRecording).is_connected = false ∧
    (runS initState traceReadFailureWhileRecording).recording_state = RecState.recording := by
  decide

/-- C4 (counterexample). After a disconnect intent arrives mid-recording
the device enters saving, but while it stays disconnected the finalize
branch (inside the connected block of the run loop) never runs: several
scheduler steps later the state is still saving, the worker signal is
still set, and the video writer of the worker is still open. -/
theorem saving_persists_while_disconnected :
    (runS initState traceDisconnectMidRecording).recording_state = RecState.saving ∧
    (runS initState traceDisconnectMidRecording).is_connected = false ∧
    (runS initState traceDisconnectMidRecording).rec_running = true ∧
    (runS initState traceDisconnectMidRecording).workers.map (fun w => w.writerOpen) = [true] := by
  decide

/-- C5 (counterexample). One frame is enqueued, its VideoWriter.write
raises, and the session is stopped and fully drained: the queue is empty
yet frames written plus frames dropped is 0 while the capture loop
attempted 1 enqueue, so written + dropped = attempted fails. -/
theorem write_error_breaks_accounting :
    (runS initState traceWriteErrorSession).rec_queue = [] ∧
    writeErrorCount (runE initState traceWriteErrorSession) = 1 ∧
    (writtenAll (runE initState traceWriteErrorSession)).length +
      (droppedList (runE initState traceWriteErrorSession)).length = 0 ∧
    (attemptList (runE initState traceWriteErrorSession)).length = 1 := by
  decide

/-- C6 (counterexample). In the same session shape the sequence of frames
written to the file by the recording worker is empty while the sequence of
frames accepted into the queue is the one-element sequence: the two are
not equal, because a frame whose write raised is absent from the file. -/
theorem write_error_file_differs_from_accepted :
    (runS initState traceWriteErrorFile).workers.map (fun w => w.file) = [[]] ∧
    acceptedList (runE initState traceWriteErrorFile) = [2] := by
  decide

/-- The streaming-command handler only touches the streaming substate and
the two streaming flags. -/
@[simp] theorem handleStreamCmds_recording_state (s : CamState) :
    (handleStreamCmds s).recording_state = s.recording_state := by
  simp only [handleStreamCmds]; split_ifs <;> rfl

/-- Streaming-command handling preserves the connection flag. -/
@[simp] theorem handleStreamCmds_is_connected (s : CamState) :
    (handleStreamCmds s).is_connected = s.is_connected := by
  simp only [handleStreamCmds]; split_ifs <;> rfl

/-- Streaming-command handling preserves the capture handle. -/
@[simp] theorem handleStreamCmds_cap (s : CamState) :
    (handleStreamCmds s).cap = s.cap := by
  simp only [handleStreamCmds]; split_ifs <;> rfl

/-- Streaming-command handling preserves the recording queue. -/
@[simp] theorem handleStreamCmds_rec_queue (s : CamState) :
    (handleStreamCmds s).rec_queue = s.rec_queue := by
  simp only [handleStreamCmds]; split_ifs <;> rfl

/-- Streaming-command handling preserves the worker-run event. -/
@[simp] theorem handleStreamCmds_rec_running (s : CamState) :
    (handleStreamCmds s).rec_running = s.rec_running := by
  simp only [handleStreamCmds]; split_ifs <;> rfl

/-- Streaming-command handling preserves the worker thread reference. -/
@[simp] theorem handleStreamCmds_rec_thread (s : CamState) :
    (handleStreamCmds s).rec_thread = s.rec_thread := by
  simp only [handleStreamCmds]; split_ifs <;> rfl

/-- Streaming-command handling preserves the workers. -/
@[simp] theorem handleStreamCmds_workers (s : CamState) :
    (handleStreamCmds s).workers = s.workers := by
  simp only [handleStreamCmds]; split_ifs <;> rfl

/-- Streaming-command handling preserves the start-record flag. -/
@[simp] theorem handleStreamCmds_start_recording_command (s : CamState) :
    (handleStreamCmds s).start_recording_command = s.start_recording_command := by
  simp only [handleStreamCmds]; split_ifs <;> rfl

/-- Streaming-command handling preserves the stop-record flag. -/
@[simp] theorem handleStreamCmds_stop_recording_command (s : CamState) :
    (handleStreamCmds s).stop_recording_command = s.stop_recording_command := by
  simp only [handleStreamCmds]; split_ifs <;> rfl

/-- The recording handler never touches the connection flag. -/
@[simp] theorem handleRecording_is_connected (s : CamState) (f : Frame) (w : Bool) :
    (handleRecording s f w).1.is_connected = s.is_connected := by
  simp only [handleRecording, start_record_worker, stop_record_worker]
  split_ifs <;> rfl

/-- The recording handler never touches the capture handle. -/
@[simp] theorem handleRecording_cap (s : CamState) (f : Frame) (w : Bool) :
    (handleRecording s f w).1.cap = s.cap := by
  simp only [handleRecording, start_record_worker, stop_record_worker]
  split_ifs <;> rfl

/-- The recording handler never touches the streaming substate. -/
@[simp] theorem handleRecording_streaming_state (s : CamState) (f : Frame) (w : Bool) :
    (handleRecording s f w).1.streaming_state = s.streaming_state := by
  simp only [handleRecording, start_record_worker, stop_record_worker]
  split_ifs <;> rfl

/-- When the device is connected with an open capture and no disconnect
intent is pending, a run-loop iteration with a successful read reduces to
the streaming and recording handlers applied to the state with the fresh
frame published. -/
theorem camTick_connected_eq (s : CamState) (oOk wOk : Bool) (f : Frame)
    (hc : s.is_connected = true) (hcap : s.cap = true) (hd : s.disconnect_command = false) :
    camTick s { openOk := oOk, read := ReadResult.ok f, writerOk := wOk } =
      handleRecording (handleStreamCmds
        { s with stats := { s.stats with captured := s.stats.captured + 1 },
                 current_frame := some f }) f wOk := by
  unfold camTick handleConnectCmd handleDisconnectCmd
  simp [hc, hcap, hd]

/-- A worker-loop iteration never touches the connection flag. -/
@[simp] theorem rec_worker_step_is_connected (s : CamState) (i : Nat) (wOk : Bool) :
    (rec_worker_step s i wOk).1.is_connected = s.is_connected := by
  unfold rec_worker_step
  repeat' split <;> try rfl

/-- A worker-loop iteration never touches the capture handle. -/
@[simp] theorem rec_worker_step_cap (s : CamState) (i : Nat) (wOk : Bool) :
    (rec_worker_step s i wOk).1.cap = s.cap := by
  unfold rec_worker_step
  repeat' split <;> try rfl

/-- A worker-loop iteration never touches the recording substate. -/
@[simp] theorem rec_worker_step_recording_state (s : CamState) (i : Nat) (wOk : Bool) :
    (rec_worker_step s i wOk).1.recording_state = s.recording_state := by
  unfold rec_worker_step
  repeat' split <;> try rfl

/-- A worker-loop iteration never touches the streaming substate. -/
@[simp] theorem rec_worker_step_streaming_state (s : CamState) (i : Nat) (wOk : Bool) :
    (rec_worker_step s i wOk).1.streaming_state = s.streaming_state := by
  unfold rec_worker_step
  repeat' split <;> try rfl

/-- A scheduler step whose capture read succeeds preserves the property
that a recording device is connected: the only run-loop paths that
disconnect while leaving recording_state at recording are the failed-read
and capture-exception paths. -/
theorem recording_connected_step (s : CamState) (st : SysStep)
    (hok : stepReadOk st = true)
    (h : s.recording_state = RecState.recording → s.is_connected = true) :
    (sysStep s st).1.recording_state = RecState.recording →
      (sysStep s st).1.is_connected = true := by
  cases st with
  | tick inp =>
    obtain ⟨oOk, rd, wOk⟩ := inp
    cases rd with
    | ok f =>
      intro hrec
      simp only [sysStep, camTick, handleConnectCmd, handleDisconnectCmd, open_capture,
        close_capture] at hrec ⊢
      split_ifs at hrec ⊢ <;> simp_all
    | fail => simp [stepReadOk] at hok
    | exn => simp [stepReadOk] at hok
  | work i wOk => simpa [sysStep] using h
  | command c => cases c <;> simpa [sysStep, setCommand] using h
  | diag => simpa [sysStep] using h

/-- C2 (amended). For every sequence of scheduler steps in which every
capture read succeeds, the device never reports recording_state recording
while it is disconnected. -/
theorem recording_implies_connected_of_reads_ok (steps : List SysStep)
    (hok : ReadsOk steps = true)
    (hrec : (runS initState steps).recording_state = RecState.recording) :
    (runS initState steps).is_connected = true := by
  have key := run_invariant
    (fun s _ => s.recording_state = RecState.recording → s.is_connected = true)
    stepReadOk
    (fun s evs st hst hs => recording_connected_step s st hst hs)
    steps initState [] hok
    (by intro hcontra; simp [initState] at hcontra)
  exact key hrec

/-- C2 (witness support): a clean connect / start_record run ends with the
device recording. -/
theorem recording_implies_connected_witness :
    ReadsOk traceRecordingSession = true ∧
    (runS initState traceRecordingSession).recording_state = RecState.recording ∧
    (runS initState traceRecordingSession).is_connected = true := by
  refine ⟨by decide, by decide, ?_⟩
  exact recording_implies_connected_of_reads_ok traceRecordingSession (by decide) (by decide)

/-- From the saving state the recording handler stops the worker and
returns to stopped, clearing the worker-run event and the thread
reference. -/
theorem handleRecording_saving (s : CamState) (f : Frame) (wOk : Bool)
    (hs : s.recording_state = RecState.saving) :
    (handleRecording s f wOk).1.recording_state = RecState.stopped ∧
    (handleRecording s f wOk).1.rec_running = false ∧
    (handleRecording s f wOk).1.rec_thread = none := by
  unfold handleRecording stop_record_worker
  simp [hs]

/-- A disconnect intent processed while recording forces the saving state
and disconnects, whatever the rest of the tick input is. -/
theorem camTick_disconnect_saving (s : CamState) (inp : TickInput)
    (hc : s.is_connected = true) (hr : s.recording_state = RecState.recording)
    (hd : s.disconnect_command = true) :
    (camTick s inp).1.recording_state = RecState.saving ∧
    (camTick s inp).1.is_connected = false := by
  unfold camTick handleConnectCmd handleDisconnectCmd close_capture
  simp [hc, hr, hd]

/-- On a connected tick with a successful read, the saving state finalizes:
stop_record_worker runs and the state returns to stopped. -/
theorem camTick_finalizes_saving (s : CamState) (oOk wOk : Bool) (f : Frame)
    (hc : s.is_connected = true) (hcap : s.cap = true)
    (hd : s.disconnect_command = false) (hs : s.recording_state = RecState.saving) :
    (camTick s { openOk := oOk, read := ReadResult.ok f, writerOk := wOk }).1.recording_state
        = RecState.stopped ∧
    (camTick s { openOk := oOk, read := ReadResult.ok f, writerOk := wOk }).1.rec_running
        = false ∧
    (camTick s { openOk := oOk, read := ReadResult.ok f, writerOk := wOk }).1.rec_thread
        = none := by
  rw [camTick_connected_eq s oOk wOk f hc hcap hd]
  exact handleRecording_saving _ f wOk (by simp [hs])

/-- Once the worker-run event is cleared and the queue drained, the next
worker-loop iteration releases the writer and exits. -/
theorem rec_worker_step_exit (s : CamState) (i : Nat) (w : RecWorker) (wOk : Bool)
    (hrun : s.rec_running = false) (hq : s.rec_queue = [])
    (hw : s.workers[i]? = some w) (he : w.exited = false) :
    (rec_worker_step s i wOk).1.workers[i]? =
      some { w with writerOpen := false, exited := true } := by
  have hlt : i < s.workers.length := by
    by_contra hcon
    simp [List.getElem?_eq_none (le_of_not_lt hcon)] at hw
  unfold rec_worker_step
  simp [hw, he, hrun, hq, List.getElem?_set_self hlt]

/-- C4 (amended). Disconnecting mid-recording forces saving immediately,
but finalization is deferred: while the device stays disconnected (and no
connect intent is pending) a tick changes nothing at all, so the state
remains saving; on the first connected tick with a successful read the
saving state finalizes (stop_record_worker runs, state stopped), and once
the worker-run event is cleared and the queue drained the worker's next
iteration closes the video writer and exits. -/
theorem saving_finalizes_only_while_connected :
    (∀ (s : CamState) (inp : TickInput),
       s.is_connected = true → s.recording_state = RecState.recording →
       s.disconnect_command = true →
       (camTick s inp).1.recording_state = RecState.saving ∧
       (camTick s inp).1.is_connected = false) ∧
    (∀ (s : CamState) (inp : TickInput),
       s.is_connected = false → s.connect_command = false →
       camTick s inp = (s, [])) ∧
    (∀ (s : CamState) (oOk wOk : Bool) (f : Frame),
       s.is_connected = true → s.cap = true →
       s.disconnect_command = false → s.recording_state = RecState.saving →
       (camTick s { openOk := oOk, read := ReadResult.ok f, writerOk := wOk }).1.recording_state
           = RecState.stopped ∧
       (camTick s { openOk := oOk, read := ReadResult.ok f, writerOk := wOk }).1.rec_running
           = false) ∧
    (∀ (s : CamState) (i : Nat) (w : RecWorker) (wOk : Bool),
       s.rec_running = false → s.rec_queue = [] →
       s.workers[i]? = some w → w.exited = false →
       (rec_worker_step s i wOk).1.workers[i]? =
         some { w with writerOpen := false, exited := true }) := by
  refine ⟨?_, ?_, ?_, ?_⟩
  · intro s inp hc hr hd
    exact camTick_disconnect_saving s inp hc hr hd
  · intro s inp h1 h2
    exact camTick_disconnected s inp h1 h2
  · intro s oOk wOk f hc hcap hd hs
    have h := camTick_finalizes_saving s oOk wOk f hc hcap hd hs
    exact ⟨h.1, h.2.1⟩
  · intro s i w wOk hrun hq hw he
    exact rec_worker_step_exit s i w wOk hrun hq hw he

/-- C4 (witness): the four parts of the amended statement evaluated at
concrete states - a recording camera receiving the disconnect intent, the
resulting disconnected saving state frozen by a tick, a connected saving
camera finalizing, and a drained worker exiting. -/
theorem saving_finalizes_witness :
    (camTick camRecordingDisconnecting
        { openOk := true, read := ReadResult.ok 9, writerOk := true }).1.recording_state
      = RecState.saving ∧
    camTick { camSaving with is_connected := false, cap := false }
        { openOk := true, read := ReadResult.ok 9, writerOk := true }
      = ({ camSaving with is_connected := false, cap := false }, []) ∧
    (camTick camSaving
        { openOk := true, read := ReadResult.ok 9, writerOk := true }).1.recording_state
      = RecState.stopped ∧
    (rec_worker_step camWorkerDraining 0 true).1.workers[0]? =
      some { writerOpen := false, file := [7], exited := true } := by
  refine ⟨?_, ?_, ?_, ?_⟩
  · exact (saving_finalizes_only_while_connected.1 camRecordingDisconnecting
      { openOk := true, read := ReadResult.ok 9, writerOk := true } rfl rfl rfl).1
  · exact saving_finalizes_only_while_connected.2.1
      { camSaving with is_connected := false, cap := false }
      { openOk := true, read := ReadResult.ok 9, writerOk := true } rfl rfl
  · exact (saving_finalizes_only_while_connected.2.2.1 camSaving true true 9
      rfl rfl rfl rfl).1
  · exact saving_finalizes_only_while_connected.2.2.2 camWorkerDraining 0
      { writerOpen := true, file := [7], exited := false } true rfl rfl (by decide) rfl

/-- A pending start_stream with no pending stop_stream leaves the
streaming substate at streaming. -/
theorem handleStreamCmds_start (s : CamState)
    (h1 : s.start_streaming_command = true) (h2 : s.stop_streaming_command = false) :
    (handleStreamCmds s).streaming_state = StreamState.streaming := by
  unfold handleStreamCmds
  simp only [h1, h2, if_true, Bool.false_eq_true, if_false]
  split_ifs <;> simp_all

/-- From stopped with a pending start_record, an open capture and no live
worker reference, the recording handler starts a worker and enters
recording. -/
theorem handleRecording_starts (s : CamState) (f : Frame) (wOk : Bool)
    (h1 : s.recording_state = RecState.stopped) (h2 : s.start_recording_command = true)
    (h3 : s.rec_thread = none) (h4 : s.cap = true) :
    (handleRecording s f wOk).1.recording_state = RecState.recording := by
  unfold handleRecording start_record_worker
  simp [h1, h2, h3, h4]

/-- C10. While a CameraDevice is disconnected with no pending connect
intent, a run-loop iteration changes nothing: the streaming and recording
substates and all pending intent flags, indeed the whole state, are left
untouched.  A pending start_stream (resp. start_record) intent then takes
effect on the first iteration in which the device reconnects with a
successful open and read. -/
theorem intents_frozen_while_disconnected :
    (∀ (s : CamState) (inp : TickInput),
       s.is_connected = false → s.connect_command = false →
       camTick s inp = (s, [])) ∧
    (∀ (s : CamState) (f : Frame),
       s.is_connected = false → s.connect_command = true →
       s.disconnect_command = false →
       s.start_streaming_command = true → s.stop_streaming_command = false →
       (camTick s { openOk := true, read := ReadResult.ok f, writerOk := true }).1.streaming_state
         = StreamState.streaming) ∧
    (∀ (s : CamState) (f : Frame),
       s.is_connected = false → s.connect_command = true →
       s.disconnect_command = false →
       s.recording_state = RecState.stopped → s.start_recording_command = true →
       s.rec_thread = none →
       (camTick s { openOk := true, read := ReadResult.ok f, writerOk := true }).1.recording_state
         = RecState.recording) := by
  refine ⟨?_, ?_, ?_⟩
  · intro s inp h1 h2
    exact camTick_disconnected s inp h1 h2
  · intro s f h1 h2 h3 h4 h5
    unfold camTick handleConnectCmd handleDisconnectCmd open_capture
    simp only [h1, h2, h3, Bool.not_false, Bool.and_self, if_true, Bool.false_eq_true,
      Bool.and_false, if_false, if_true, Bool.and_true]
    simp only [handleRecording_streaming_state]
    exact handleStreamCmds_start _ (by simp [h4]) (by simp [h5])
  · intro s f h1 h2 h3 h4 h5 h6
    unfold camTick handleConnectCmd handleDisconnectCmd open_capture
    simp only [h1, h2, h3, Bool.not_false, Bool.and_self, if_true, Bool.false_eq_true,
      Bool.and_false, if_false, if_true, Bool.and_true]
    exact handleRecording_starts _ f true (by simp [h4]) (by simp [h5]) (by simp [h6]) (by simp)

/-- C10 (witness): a disconnected camera with pending stream/record
intents is unchanged by a tick; with a pending connect intent the pending
start_stream (resp. start_record) takes effect on the reconnect tick. -/
theorem intents_frozen_witness :
    camTick camDisconnectedWithIntents
        { openOk := true, read := ReadResult.ok 3, writerOk := true }
      = (camDisconnectedWithIntents, []) ∧
    (camTick camReconnectPending
        { openOk := true, read := ReadResult.ok 3, writerOk := true }).1.streaming_state
      = StreamState.streaming ∧
    (camTick camRecordPending
        { openOk := true, read := ReadResult.ok 3, writerOk := true }).1.recording_state
      = RecState.recording := by
  refine ⟨?_, ?_, ?_⟩
  · exact intents_frozen_while_disconnected.1 camDisconnectedWithIntents
      { openOk := true, read := ReadResult.ok 3, writerOk := true } rfl rfl
  · exact intents_frozen_while_disconnected.2.1 camReconnectPending 3 rfl rfl rfl rfl rfl
  · exact intents_frozen_while_disconnected.2.2 camRecordPending 3 rfl rfl rfl rfl rfl rfl

/-- In every state reachable from the initial state, a connected device
has an open capture handle: open_capture sets both together and
close_capture clears both together. -/
theorem connected_implies_cap (steps : List SysStep) :
    (runS initState steps).is_connected = true → (runS initState steps).cap = true := by
  have key := run_invariant (fun s _ => s.is_connected = true → s.cap = true)
    (fun _ => true)
    (fun s evs st _ hs => by
      cases st with
      | tick inp =>
        obtain ⟨oOk, rd, wOk⟩ := inp
        intro hconn
        cases rd <;>
          (simp only [sysStep, camTick, handleConnectCmd, handleDisconnectCmd, open_capture,
             close_capture] at hconn ⊢;
           split_ifs at hconn ⊢ <;> simp_all)
      | work i wOk => simpa [sysStep] using hs
      | command c => cases c <;> simpa [sysStep, setCommand] using hs
      | diag => simpa [sysStep] using hs)
    steps initState [] (by simp) (by simp [initState])
  exact key

/-- C8. For every camera state in which connectivity entails an open
capture handle (an invariant of all reachable states, see
connected_implies_cap): the MJPEG handler returns 200 exactly when the
device is connected and its streaming substate is streaming; when the
device is disconnected or streaming is not enabled it returns a plain 503
response - an error response produced before any multipart content, so no
frame is written; otherwise it returns the 200 multipart/x-mixed-replace
streaming response. -/
theorem mjpeg_gate_refuses_unless_streaming (s : CamState)
    (hcap : s.is_connected = true → s.cap = true) :
    ((mjpeg_handler_gate s).status = 200 ↔
       s.is_connected = true ∧ s.streaming_state = StreamState.streaming) ∧
    (s.is_connected = false ∨ s.streaming_state ≠ StreamState.streaming →
       ∃ t, mjpeg_handler_gate s = MjpegResult.plain 503 t) ∧
    (s.is_connected = true → s.streaming_state = StreamState.streaming →
       mjpeg_handler_gate s =
         MjpegResult.stream 200 "multipart/x-mixed-replace; boundary=frame") := by
  by_cases hc : s.is_connected = true
  · have hc2 := hcap hc
    by_cases hs : s.streaming_state = StreamState.streaming
    · simp [mjpeg_handler_gate, MjpegResult.status, hc, hc2, hs]
    · simp [mjpeg_handler_gate, MjpegResult.status, hc, hc2, hs]
  · have hc' : s.is_connected = false := by simpa using hc
    simp [mjpeg_handler_gate, MjpegResult.status, hc']

/-- Connect-command handling never touches the recording queue. -/
@[simp] theorem handleConnectCmd_rec_queue (s : CamState) (o : Bool) :
    (handleConnectCmd s o).rec_queue = s.rec_queue := by
  simp only [handleConnectCmd, open_capture]; split_ifs <;> rfl

/-- Connect-command handling never touches the workers. -/
@[simp] theorem handleConnectCmd_workers (s : CamState) (o : Bool) :
    (handleConnectCmd s o).workers = s.workers := by
  simp only [handleConnectCmd, open_capture]; split_ifs <;> rfl

/-- Disconnect-command handling never touches the recording queue. -/
@[simp] theorem handleDisconnectCmd_rec_queue (s : CamState) :
    (handleDisconnectCmd s).rec_queue = s.rec_queue := by
  simp only [handleDisconnectCmd, close_capture]; split_ifs <;> rfl

/-- Disconnect-command handling never touches the workers. -/
@[simp] theorem handleDisconnectCmd_workers (s : CamState) :
    (handleDisconnectCmd s).workers = s.workers := by
  simp only [handleDisconnectCmd, close_capture]; split_ifs <;> rfl

/-- Setting a command flag never touches the recording queue. -/
@[simp] theorem setCommand_rec_queue (s : CamState) (c : Command) :
    (setCommand s c).rec_queue = s.rec_queue := by
  cases c <;> rfl

/-- Setting a command flag never touches the workers. -/
@[simp] theorem setCommand_workers (s : CamState) (c : Command) :
    (setCommand s c).workers = s.workers := by
  cases c <;> rfl

/-- Splitting the event lists over appended event sequences. -/
@[simp] theorem attemptList_append (a b : List Event) :
    attemptList (a ++ b) = attemptList a ++ attemptList b := by
  simp [attemptList]

/-- Accepted frames of an appended event sequence. -/
@[simp] theorem acceptedList_append (a b : List Event) :
    acceptedList (a ++ b) = acceptedList a ++ acceptedList b := by
  simp [acceptedList]

/-- Dropped frames of an appended event sequence. -/
@[simp] theorem droppedList_append (a b : List Event) :
    droppedList (a ++ b) = droppedList a ++ droppedList b := by
  simp [droppedList]

/-- Processed frames of an appended event sequence. -/
@[simp] theorem processedList_append (a b : List Event) :
    processedList (a ++ b) = processedList a ++ processedList b := by
  simp [processedList]

/-- Written frames of worker i over an appended event sequence. -/
@[simp] theorem writtenList_append (i : Nat) (a b : List Event) :
    writtenList i (a ++ b) = writtenList i a ++ writtenList i b := by
  simp [writtenList]

/-- Written frames of any worker over an appended event sequence. -/
@[simp] theorem writtenAll_append (a b : List Event) :
    writtenAll (a ++ b) = writtenAll a ++ writtenAll b := by
  simp [writtenAll]

/-- Write errors of an appended event sequence. -/
@[simp] theorem writeErrorCount_append (a b : List Event) :
    writeErrorCount (a ++ b) = writeErrorCount a + writeErrorCount b := by
  simp [writeErrorCount]

/-- Computation rules of the event lists over a leading event. -/
@[simp] theorem attemptList_nil : attemptList [] = [] := rfl

/-- Attempt list over a leading enqueue attempt. -/
@[simp] theorem attemptList_cons_attempt (f : Frame) (l : List Event) :
    attemptList (Event.enqueueAttempt f :: l) = f :: attemptList l := rfl

/-- Attempt list ignores accepted events. -/
@[simp] theorem attemptList_cons_accepted (f : Frame) (l : List Event) :
    attemptList (Event.accepted f :: l) = attemptList l := rfl

/-- Attempt list ignores dropped events. -/
@[simp] theorem attemptList_cons_dropped (f : Frame) (l : List Event) :
    attemptList (Event.dropped f :: l) = attemptList l := rfl

/-- Attempt list ignores written events. -/
@[simp] theorem attemptList_cons_written (i : Nat) (f : Frame) (l : List Event) :
    attemptList (Event.written i f :: l) = attemptList l := rfl

/-- Attempt list ignores write errors. -/
@[simp] theorem attemptList_cons_writeError (i : Nat) (f : Frame) (l : List Event) :
    attemptList (Event.writeError i f :: l) = attemptList l := rfl

/-- Accepted list of no events. -/
@[simp] theorem acceptedList_nil : acceptedList [] = [] := rfl

/-- Accepted list over a leading accepted event. -/
@[simp] theorem acceptedList_cons_accepted (f : Frame) (l : List Event) :
    acceptedList (Event.accepted f :: l) = f :: acceptedList l := rfl

/-- Accepted list ignores enqueue attempts. -/
@[simp] theorem acceptedList_cons_attempt (f : Frame) (l : List Event) :
    acceptedList (Event.enqueueAttempt f :: l) = acceptedList l := rfl

/-- Accepted list ignores dropped events. -/
@[simp] theorem acceptedList_cons_dropped (f : Frame) (l : List Event) :
    acceptedList (Event.dropped f :: l) = acceptedList l := rfl

/-- Accepted list ignores written events. -/
@[simp] theorem acceptedList_cons_written (i : Nat) (f : Frame) (l : List Event) :
    acceptedList (Event.written i f :: l) = acceptedList l := rfl

/-- Accepted list ignores write errors. -/
@[simp] theorem acceptedList_cons_writeError (i : Nat) (f : Frame) (l : List Event) :
    acceptedList (Event.writeError i f :: l) = acceptedList l := rfl

/-- Dropped list of no events. -/
@[simp] theorem droppedList_nil : droppedList [] = [] := rfl

/-- Dropped list over a leading dropped event. -/
@[simp] theorem droppedList_cons_dropped (f : Frame) (l : List Event) :
    droppedList (Event.dropped f :: l) = f :: droppedList l := rfl

/-- Dropped list ignores enqueue attempts. -/
@[simp] theorem droppedList_cons_attempt (f : Frame) (l : List Event) :
    droppedList (Event.enqueueAttempt f :: l) = droppedList l := rfl

/-- Dropped list ignores accepted events. -/
@[simp] theorem droppedList_cons_accepted (f : Frame) (l : List Event) :
    droppedList (Event.accepted f :: l) = droppedList l := rfl

/-- Dropped list ignores written events. -/
@[simp] theorem droppedList_cons_written (i : Nat) (f : Frame) (l : List Event) :
    droppedList (Event.written i f :: l) = droppedList l := rfl

/-- Dropped list ignores write errors. -/
@[simp] theorem droppedList_cons_writeError (i : Nat) (f : Frame) (l : List Event) :
    droppedList (Event.writeError i f :: l) = droppedList l := rfl

/-- Processed list of no events. -/
@[simp] theorem processedList_nil : processedList [] = [] := rfl

/-- Processed list over a leading written event. -/
@[simp] theorem processedList_cons_written (i : Nat) (f : Frame) (l : List Event) :
    processedList (Event.written i f :: l) = f :: processedList l := rfl

/-- Processed list over a leading write error. -/
@[simp] theorem processedList_cons_writeError (i : Nat) (f : Frame) (l : List Event) :
    processedList (Event.writeError i f :: l) = f :: processedList l := rfl

/-- Processed list ignores enqueue attempts. -/
@[simp] theorem processedList_cons_attempt (f : Frame) (l : List Event) :
    processedList (Event.enqueueAttempt f :: l) = processedList l := rfl

/-- Processed list ignores accepted events. -/
@[simp] theorem processedList_cons_accepted (f : Frame) (l : List Event) :
    processedList (Event.accepted f :: l) = processedList l := rfl

/-- Processed list ignores dropped events. -/
@[simp] theorem processedList_cons_dropped (f : Frame) (l : List Event) :
    processedList (Event.dropped f :: l) = processedList l := rfl

/-- Written list of no events. -/
@[simp] theorem writtenList_nil (i : Nat) : writtenList i [] = [] := rfl

/-- Written list over a leading written event. -/
theorem writtenList_cons_written (i j : Nat) (f : Frame) (l : List Event) :
    writtenList i (Event.written j f :: l) =
      if j = i then f :: writtenList i l else writtenList i l := by
  by_cases hj : j = i <;> simp [writtenList, List.filterMap_cons, hj]

/-- Written list ignores write errors. -/
@[simp] theorem writtenList_cons_writeError (i j : Nat) (f : Frame) (l : List Event) :
    writtenList i (Event.writeError j f :: l) = writtenList i l := rfl

/-- Written list ignores enqueue attempts. -/
@[simp] theorem writtenList_cons_attempt (i : Nat) (f : Frame) (l : List Event) :
    writtenList i (Event.enqueueAttempt f :: l) = writtenList i l := rfl

/-- Written list ignores accepted events. -/
@[simp] theorem writtenList_cons_accepted (i : Nat) (f : Frame) (l : List Event) :
    writtenList i (Event.accepted f :: l) = writtenList i l := rfl

/-- Written list ignores dropped events. -/
@[simp] theorem writtenList_cons_dropped (i : Nat) (f : Frame) (l : List Event) :
    writtenList i (Event.dropped f :: l) = writtenList i l := rfl

/-- Written-by-any list of no events. -/
@[simp] theorem writtenAll_nil : writtenAll [] = [] := rfl

/-- Written-by-any list over a leading written event. -/
@[simp] theorem writtenAll_cons_written (i : Nat) (f : Frame) (l : List Event) :
    writtenAll (Event.written i f :: l) = f :: writtenAll l := rfl

/-- Write-error count of no events. -/
@[simp] theorem writeErrorCount_nil : writeErrorCount [] = 0 := rfl

/-- Write-error count over a leading write error. -/
@[simp] theorem writeErrorCount_cons_writeError (i : Nat) (f : Frame) (l : List Event) :
    writeErrorCount (Event.writeError i f :: l) = writeErrorCount l + 1 := by
  simp [writeErrorCount, List.filterMap_cons]

/-- Write-error count ignores written events. -/
@[simp] theorem writeErrorCount_cons_written (i : Nat) (f : Frame) (l : List Event) :
    writeErrorCount (Event.written i f :: l) = writeErrorCount l := rfl

/-- Write-error count ignores enqueue attempts. -/
@[simp] theorem writeErrorCount_cons_attempt (f : Frame) (l : List Event) :
    writeErrorCount (Event.enqueueAttempt f :: l) = writeErrorCount l := rfl

/-- Write-error count ignores accepted events. -/
@[simp] theorem writeErrorCount_cons_accepted (f : Frame) (l : List Event) :
    writeErrorCount (Event.accepted f :: l) = writeErrorCount l := rfl

/-- Write-error count ignores dropped events. -/
@[simp] theorem writeErrorCount_cons_dropped (f : Frame) (l : List Event) :
    writeErrorCount (Event.dropped f :: l) = writeErrorCount l := rfl

/-- Every dequeued frame was either written or lost to a write error. -/
theorem processedList_length (evs : List Event) :
    (processedList evs).length = (writtenAll evs).length + writeErrorCount evs := by
  induction evs with
  | nil => rfl
  | cons e rest ih =>
    cases e <;>
      simp [processedList, writtenAll, writeErrorCount, List.filterMap_cons] at ih ⊢ <;>
      omega

/-- The frames a given worker wrote form a subsequence of the dequeued
frames, in order. -/
theorem writtenList_sublist (i : Nat) (evs : List Event) :
    List.Sublist (writtenList i evs) (processedList evs) := by
  induction evs with
  | nil => simp [writtenList, processedList]
  | cons e rest ih =>
    cases e with
    | written j f =>
      by_cases hj : j = i
      · simpa [writtenList, processedList, List.filterMap_cons, hj] using ih.cons₂ f
      · simpa [writtenList, processedList, List.filterMap_cons, hj] using ih.cons f
    | writeError j f =>
      simpa [writtenList, processedList, List.filterMap_cons] using ih.cons f
    | enqueueAttempt f =>
      simpa [writtenList, processedList, List.filterMap_cons] using ih
    | accepted f =>
      simpa [writtenList, processedList, List.filterMap_cons] using ih
    | dropped f =>
      simpa [writtenList, processedList, List.filterMap_cons] using ih

/-- A worker that no event names wrote nothing. -/
theorem writtenList_eq_nil (i : Nat) (evs : List Event)
    (h : ∀ f, Event.written i f ∉ evs) : writtenList i evs = [] := by
  induction evs with
  | nil => rfl
  | cons e rest ih =>
    have hrest : ∀ f, Event.written i f ∉ rest := by
      intro f hf
      exact h f (List.mem_cons_of_mem e hf)
    cases e with
    | written j f =>
      by_cases hj : j = i
      · exact absurd (by simp [hj]) (h f)
      · simpa [writtenList, List.filterMap_cons, hj] using ih hrest
    | writeError j f => simpa [writtenList, List.filterMap_cons] using ih hrest
    | enqueueAttempt f => simpa [writtenList, List.filterMap_cons] using ih hrest
    | accepted f => simpa [writtenList, List.filterMap_cons] using ih hrest
    | dropped f => simpa [writtenList, List.filterMap_cons] using ih hrest

/-- With no write errors and all written events naming worker 0, the
dequeued frames are exactly worker 0's written frames. -/
theorem processedList_eq_writtenList_zero (evs : List Event)
    (herr : writeErrorCount evs = 0)
    (hall : ∀ i f, Event.written i f ∈ evs → i = 0) :
    processedList evs = writtenList 0 evs := by
  induction evs with
  | nil => rfl
  | cons e rest ih =>
    have hall2 : ∀ i f, Event.written i f ∈ rest → i = 0 := by
      intro i f hf
      exact hall i f (List.mem_cons_of_mem e hf)
    cases e with
    | written j f =>
      have herr2 : writeErrorCount rest = 0 := by
        simpa [writeErrorCount, List.filterMap_cons] using herr
      have hj : j = 0 := hall j f (by simp)
      have ih2 := ih herr2 hall2
      simp only [processedList, writtenList] at ih2
      simp [processedList, writtenList, List.filterMap_cons, hj, ih2]
    | writeError j f =>
      simp [writeErrorCount, List.filterMap_cons] at herr
    | enqueueAttempt f =>
      have herr2 : writeErrorCount rest = 0 := by
        simpa [writeErrorCount, List.filterMap_cons] using herr
      simpa [processedList, writtenList, List.filterMap_cons] using ih herr2 hall2
    | accepted f =>
      have herr2 : writeErrorCount rest = 0 := by
        simpa [writeErrorCount, List.filterMap_cons] using herr
      simpa [processedList, writtenList, List.filterMap_cons] using ih herr2 hall2
    | dropped f =>
      have herr2 : writeErrorCount rest = 0 := by
        simpa [writeErrorCount, List.filterMap_cons] using herr
      simpa [processedList, writtenList, List.filterMap_cons] using ih herr2 hall2

/-- The pipeline invariant only depends on the recording queue and the
workers. -/
theorem pipelineInv_congr (s t : CamState) (evs : List Event)
    (hq : t.rec_queue = s.rec_queue) (hw : t.workers = s.workers)
    (h : PipelineInv s evs) : PipelineInv t evs := by
  obtain ⟨h1, h2, h3, h4, h5⟩ := h
  refine ⟨?_, h2, ?_, ?_, ?_⟩
  · rw [hq]; exact h1
  · intro i w hiw
    rw [hw] at hiw
    exact h3 i w hiw
  · intro i f hf
    rw [hw]
    exact h4 i f hf
  · rw [hq]; exact h5

/-- Appending a fresh worker with an empty file preserves the pipeline
invariant, as long as the queue is unchanged. -/
theorem pipelineInv_spawn (s t : CamState) (evs : List Event) (w0 : RecWorker)
    (hq : t.rec_queue = s.rec_queue) (hw : t.workers = s.workers ++ [w0])
    (hfile : w0.file = []) (h : PipelineInv s evs) : PipelineInv t evs := by
  obtain ⟨h1, h2, h3, h4, h5⟩ := h
  refine ⟨by rw [hq]; exact h1, h2, ?_, ?_, by rw [hq]; exact h5⟩
  · intro i w hiw
    rw [hw] at hiw
    rcases Nat.lt_trichotomy i s.workers.length with hlt | heq | hgt
    · rw [List.getElem?_append_left hlt] at hiw
      exact h3 i w hiw
    · subst heq
      rw [List.getElem?_concat_length] at hiw
      have hnil : writtenList s.workers.length evs = [] := by
        apply writtenList_eq_nil
        intro f hf
        exact absurd (h4 _ f hf) (lt_irrefl _)
      cases hiw
      rw [hnil, hfile]
    · have hnone : (s.workers ++ [w0])[i]? = none := by
        apply List.getElem?_eq_none
        simp only [List.length_append, List.length_cons, List.length_nil]
        omega
      rw [hnone] at hiw
      cases hiw
  · intro i f hf
    have := h4 i f hf
    rw [hw]
    simp only [List.length_append, List.length_cons, List.length_nil]
    omega

/-- Starting a recording worker preserves the pipeline invariant: the new
worker begins with an empty file and no event has ever named it. -/
theorem pipelineInv_start_record (s : CamState) (evs : List Event) (wOk : Bool)
    (h : PipelineInv s evs) : PipelineInv (start_record_worker s wOk).1 evs := by
  unfold start_record_worker
  split_ifs with hguard hcap hwk
  · exact h
  · exact h
  · exact pipelineInv_spawn s _ evs _ rfl rfl rfl h
  · exact pipelineInv_spawn s _ evs _ rfl rfl rfl h

/-- The recording handler preserves the pipeline invariant, extending the
event history with the enqueue events it emits. -/
theorem pipelineInv_handleRecording (s : CamState) (evs : List Event) (f : Frame) (wOk : Bool)
    (h : PipelineInv s evs) :
    PipelineInv (handleRecording s f wOk).1 (evs ++ (handleRecording s f wOk).2) := by
  simp only [handleRecording]
  split_ifs with hrs hstart hp hrec hstop hfull hsave
  · -- start_record succeeded: enter recording
    have hs1 : PipelineInv { s with start_recording_command := false } evs :=
      pipelineInv_congr s _ evs rfl rfl h
    have hp1 := pipelineInv_start_record { s with start_recording_command := false } evs wOk hs1
    simpa using pipelineInv_congr _ _ evs rfl rfl hp1
  · -- start_record did not start a fresh worker
    have hs1 : PipelineInv { s with start_recording_command := false } evs :=
      pipelineInv_congr s _ evs rfl rfl h
    simpa using pipelineInv_start_record { s with start_recording_command := false } evs wOk hs1
  · -- no start command pending
    simpa using h
  · -- stop command: recording -> saving
    simpa using pipelineInv_congr s _ evs rfl rfl h
  · -- queue full: the frame is dropped and counted
    obtain ⟨h1, h2, h3, h4, h5⟩ := h
    refine ⟨?_, ?_, ?_, ?_, ?_⟩
    · simpa using h1
    · simp [List.length_append]
      omega
    · intro i w hiw
      simpa using h3 i w hiw
    · intro i f2 hf
      rcases List.mem_append.mp hf with hin | hin
      · exact h4 i f2 hin
      · simp at hin
    · exact h5
  · -- queue not full: the frame is accepted
    obtain ⟨h1, h2, h3, h4, h5⟩ := h
    refine ⟨?_, ?_, ?_, ?_, ?_⟩
    · simp only [processedList_append, acceptedList_append, processedList_cons_attempt,
        processedList_cons_accepted, processedList_nil, acceptedList_cons_attempt,
        acceptedList_cons_accepted, acceptedList_nil, List.append_nil]
      rw [← List.append_assoc, h1]
    · simp [List.length_append]
      omega
    · intro i w hiw
      simpa using h3 i w hiw
    · intro i f2 hf
      rcases List.mem_append.mp hf with hin | hin
      · exact h4 i f2 hin
      · simp at hin
    · simp only [List.length_append, List.length_cons, List.length_nil]
      have hlt : ¬ REC_QUEUE_MAXSIZE ≤ s.rec_queue.length := hfull
      omega
  · -- saving: stop the worker, back to stopped
    simpa using pipelineInv_congr s _ evs rfl rfl h
  · -- disconnected recording substate: nothing happens
    simpa using h

/-- A worker-loop iteration preserves the pipeline invariant: dequeues
happen at the queue head, a successful write extends exactly that worker's
file by the dequeued frame, and a failed write discards it. -/
theorem pipelineInv_work (s : CamState) (evs : List Event) (i : Nat) (wOk : Bool)
    (h : PipelineInv s evs) :
    PipelineInv (rec_worker_step s i wOk).1 (evs ++ (rec_worker_step s i wOk).2) := by
  unfold rec_worker_step
  split
  · simpa using h
  rename_i w hw
  have hlt : i < s.workers.length := by
    by_contra hcon
    rw [List.getElem?_eq_none (le_of_not_lt hcon)] at hw
    cases hw
  obtain ⟨h1, h2, h3, h4, h5⟩ := h
  split_ifs with hex hloop hwr
  · simpa using ⟨h1, h2, h3, h4, h5⟩
  · -- write succeeds on a dequeued frame
    split
    · simpa using ⟨h1, h2, h3, h4, h5⟩
    · rename_i f rest hq
      refine ⟨?_, ?_, ?_, ?_, ?_⟩
      · rw [hq] at h1
        simpa [List.append_assoc] using h1
      · simpa using h2
      · intro j w2 hjw
        simp only at hjw
        by_cases hji : j = i
        · subst hji
          rw [List.getElem?_set_self hlt] at hjw
          cases hjw
          simp [writtenList_cons_written, h3 j w hw]
        · rw [List.getElem?_set_ne (fun hij => hji hij.symm)] at hjw
          have hij : ¬ i = j := fun hij => hji hij.symm
          simp [writtenList_cons_written, hij, h3 j w2 hjw]
      · intro j f2 hf2
        simp only [List.length_set]
        rcases List.mem_append.mp hf2 with hin | hin
        · exact h4 j f2 hin
        · simp at hin
          rw [hin.1]
          exact hlt
      · rw [hq] at h5
        simp only [List.length_cons] at h5
        simp only []
        omega
  · -- write raises on a dequeued frame
    split
    · simpa using ⟨h1, h2, h3, h4, h5⟩
    · rename_i f rest hq
      refine ⟨?_, ?_, ?_, ?_, ?_⟩
      · rw [hq] at h1
        simpa [List.append_assoc] using h1
      · simpa using h2
      · intro j w2 hjw
        simpa using h3 j w2 hjw
      · intro j f2 hf2
        rcases List.mem_append.mp hf2 with hin | hin
        · exact h4 j f2 hin
        · simp at hin
      · rw [hq] at h5
        simp only [List.length_cons] at h5
        simp only []
        omega
  · -- loop condition failed: release the writer and exit
    refine ⟨by simpa using h1, by simpa using h2, ?_, ?_, by simpa using h5⟩
    · intro j w2 hjw
      simp only [List.append_nil]
      by_cases hji : j = i
      · subst hji
        rw [List.getElem?_set_self hlt] at hjw
        cases hjw
        exact h3 j w hw
      · rw [List.getElem?_set_ne (fun hij => hji hij.symm)] at hjw
        exact h3 j w2 hjw
    · intro j f2 hf2
      simp only [List.length_set]
      exact h4 j f2 (by simpa using hf2)

/-- A run-loop iteration preserves the pipeline invariant: only the
recording handler touches the queue or the workers or emits events. -/
theorem pipelineInv_tick (s : CamState) (evs : List Event) (inp : TickInput)
    (h : PipelineInv s evs) :
    PipelineInv (camTick s inp).1 (evs ++ (camTick s inp).2) := by
  obtain ⟨oOk, rd, wOk⟩ := inp
  have hPre : PipelineInv (handleDisconnectCmd (handleConnectCmd s oOk)) evs :=
    pipelineInv_congr s _ evs (by simp) (by simp) h
  cases rd with
  | exn =>
    simp only [camTick]
    split_ifs
    · simpa using pipelineInv_congr _ _ evs (by simp [close_capture]) (by simp [close_capture]) hPre
    · simpa using hPre
  | fail =>
    simp only [camTick]
    split_ifs
    · simpa using pipelineInv_congr _ _ evs (by simp [close_capture]) (by simp [close_capture]) hPre
    · simpa using hPre
  | ok f =>
    simp only [camTick]
    split_ifs with hcon
    · exact pipelineInv_handleRecording _ evs f wOk
        (pipelineInv_congr _ _ evs (by simp) (by simp) hPre)
    · simpa using hPre

/-- Every scheduler step preserves the pipeline invariant. -/
theorem pipelineInv_sysStep (s : CamState) (evs : List Event) (st : SysStep)
    (h : PipelineInv s evs) :
    PipelineInv (sysStep s st).1 (evs ++ (sysStep s st).2) := by
  cases st with
  | tick inp => exact pipelineInv_tick s evs inp h
  | work i wOk => exact pipelineInv_work s evs i wOk h
  | command c => simpa [sysStep] using pipelineInv_congr s _ evs (by simp) (by simp) h
  | diag => simpa [sysStep] using pipelineInv_congr s _ evs rfl rfl h

/-- The pipeline invariant holds after every run from the initial state. -/
theorem pipelineInv_run (steps : List SysStep) :
    PipelineInv (runS initState steps) (runE initState steps) := by
  have h0 : PipelineInv initState [] := by
    refine ⟨rfl, rfl, ?_, ?_, ?_⟩
    · intro i w hiw
      simp [initState] at hiw
    · intro i f hf
      simp at hf
    · simp [initState, REC_QUEUE_MAXSIZE]
  have key := run_invariant PipelineInv (fun _ => true)
    (fun s2 e2 st _ hh => pipelineInv_sysStep s2 e2 st hh) steps initState []
    (by simp) h0
  simpa [runS, runE] using key

/-- A dropped event can only come from the full-queue branch of the
recording handler. -/
theorem handleRecording_dropped (s : CamState) (f g : Frame) (wOk : Bool)
    (h : Event.dropped g ∈ (handleRecording s f wOk).2) :
    REC_QUEUE_MAXSIZE ≤ s.rec_queue.length := by
  simp only [handleRecording] at h
  split_ifs at h with hrs hstart hp hrec hstop hfull hsave <;> simp at h
  exact hfull

/-- A dropped event during a run-loop iteration implies the queue was
observed full at enqueue time (the handlers before the enqueue never touch
the queue). -/
theorem camTick_dropped_full (s : CamState) (inp : TickInput) (f : Frame)
    (h : Event.dropped f ∈ (camTick s inp).2) :
    REC_QUEUE_MAXSIZE ≤ s.rec_queue.length := by
  obtain ⟨oOk, rd, wOk⟩ := inp
  cases rd with
  | exn =>
    simp only [camTick] at h
    split_ifs at h <;> simp at h
  | fail =>
    simp only [camTick] at h
    split_ifs at h <;> simp at h
  | ok g =>
    simp only [camTick] at h
    split_ifs at h with hcon
    · simpa using handleRecording_dropped _ g f wOk h
    · simp at h

/-- C5 (amended). For every run: once the queue has been fully drained,
frames written plus frames dropped account for every enqueue attempt up to
the frames lost to VideoWriter.write errors - in particular with no write
error the sum equals the number of attempts exactly; and a frame is
dropped only when the bounded queue holds REC_QUEUE_MAXSIZE frames at
enqueue time. -/
theorem frame_accounting_and_drop_policy :
    (∀ steps : List SysStep,
       writeErrorCount (runE initState steps) = 0 →
       (runS initState steps).rec_queue = [] →
       (writtenAll (runE initState steps)).length + (droppedList (runE initState steps)).length
         = (attemptList (runE initState steps)).length) ∧
    (∀ (steps : List SysStep) (inp : TickInput) (f : Frame),
       Event.dropped f ∈ (camTick (runS initState steps) inp).2 →
       (runS initState steps).rec_queue.length = REC_QUEUE_MAXSIZE) := by
  constructor
  · intro steps herr hq
    obtain ⟨h1, h2, h3, h4, h5⟩ := pipelineInv_run steps
    have hlen := congrArg List.length h1
    rw [hq] at hlen
    simp [List.length_append] at hlen
    have hproc := processedList_length (runE initState steps)
    rw [herr] at hproc
    omega
  · intro steps inp f hmem
    obtain ⟨h1, h2, h3, h4, h5⟩ := pipelineInv_run steps
    have hge := camTick_dropped_full (runS initState steps) inp f hmem
    omega

/-- C5 (witness): a clean one-frame session satisfies the accounting
equation, and after filling the queue with REC_QUEUE_MAXSIZE frames the
next enqueue drops its frame with the queue observed full. -/
theorem frame_accounting_witness :
    (writeErrorCount (runE initState traceCleanSession) = 0 ∧
     (runS initState traceCleanSession).rec_queue = [] ∧
     (writtenAll (runE initState traceCleanSession)).length +
       (droppedList (runE initState traceCleanSession)).length
       = (attemptList (runE initState traceCleanSession)).length) ∧
    (Event.dropped 14 ∈ (camTick (runS initState traceFillQueue)
        { openOk := true, read := ReadResult.ok 14, writerOk := true }).2 ∧
     (runS initState traceFillQueue).rec_queue.length = REC_QUEUE_MAXSIZE) := by
  refine ⟨⟨by decide, by decide, ?_⟩, ⟨by decide, ?_⟩⟩
  · exact frame_accounting_and_drop_policy.1 traceCleanSession (by decide) (by decide)
  · exact frame_accounting_and_drop_policy.2 traceFillQueue
      { openOk := true, read := ReadResult.ok 14, writerOk := true } 14 (by decide)

/-- C6 (amended). For every run, each worker's file is an order-preserving
subsequence of the frames accepted into the bounded queue (retained frames
are never reordered; frames dropped at enqueue, frames lost to write
errors and frames still queued are simply absent); and for a session with
a single worker, no write error and a drained queue, the file is exactly
the accepted sequence. -/
theorem file_order_preserved :
    (∀ (steps : List SysStep) (i : Nat) (w : RecWorker),
       (runS initState steps).workers[i]? = some w →
       List.Sublist w.file (acceptedList (runE initState steps))) ∧
    (∀ (steps : List SysStep) (w : RecWorker),
       writeErrorCount (runE initState steps) = 0 →
       (runS initState steps).rec_queue = [] →
       (runS initState steps).workers = [w] →
       w.file = acceptedList (runE initState steps)) := by
  constructor
  · intro steps i w hiw
    obtain ⟨h1, h2, h3, h4, h5⟩ := pipelineInv_run steps
    rw [h3 i w hiw]
    have hsub1 := writtenList_sublist i (runE initState steps)
    have hsub2 : List.Sublist (processedList (runE initState steps))
        (acceptedList (runE initState steps)) := by
      rw [← h1]
      exact List.sublist_append_left _ _
    exact hsub1.trans hsub2
  · intro steps w herr hq hws
    obtain ⟨h1, h2, h3, h4, h5⟩ := pipelineInv_run steps
    have hfile : w.file = writtenList 0 (runE initState steps) := by
      apply h3 0 w
      rw [hws]
      rfl
    have hall : ∀ i f, Event.written i f ∈ runE initState steps → i = 0 := by
      intro i f hf
      have hlen := h4 i f hf
      rw [hws] at hlen
      simpa using hlen
    have hproc := processedList_eq_writtenList_zero _ herr hall
    rw [hq, List.append_nil] at h1
    rw [hfile, ← hproc, h1]

/-- C6 (witness): in the clean one-frame session the single worker's file
is exactly the accepted sequence, and in particular a subsequence of it. -/
theorem file_order_witness :
    (runS initState traceCleanSessionFile).workers
      = [{ writerOpen := false, file := [2], exited := true }] ∧
    writeErrorCount (runE initState traceCleanSessionFile) = 0 ∧
    (runS initState traceCleanSessionFile).rec_queue = [] ∧
    ({ writerOpen := false, file := [2], exited := true } : RecWorker).file
      = acceptedList (runE initState traceCleanSessionFile) ∧
    List.Sublist ({ writerOpen := false, file := [2], exited := true } : RecWorker).file
      (acceptedList (runE initState traceCleanSessionFile)) := by
  refine ⟨by decide, by decide, by decide, ?_, ?_⟩
  · exact file_order_preserved.2 traceCleanSessionFile _ (by decide) (by decide) (by decide)
  · exact file_order_preserved.1 traceCleanSessionFile 0 _ (by decide)

/-- C8 (witness): the initial (disconnected) camera gets a plain 503
response, and a connected streaming camera gets the 200 multipart
response. -/
theorem mjpeg_gate_witness :
    (∃ t, mjpeg_handler_gate initState = MjpegResult.plain 503 t) ∧
    mjpeg_handler_gate camConnectedStreaming =
      MjpegResult.stream 200 "multipart/x-mixed-replace; boundary=frame" := by
  constructor
  · exact (mjpeg_gate_refuses_unless_streaming initState (by decide)).2.1 (Or.inl (by decide))
  · exact (mjpeg_gate_refuses_unless_streaming camConnectedStreaming (by decide)).2.2
      (by decide) (by decide)

end CamDev

end MachineVision
